import Mathlib

/-!
Verification of the campus-life-events identity / session / audit subsystem

Shallow embedding of the Rust backend (`src/backend/src/routes/auth.rs`,
`src/backend/src/routes/shared.rs`, `src/backend/src/routes/events.rs`,
`src/backend/src/error.rs`, `src/backend/src/models.rs`) in Lean 4.

Conventions of the embedding:
* `DateTime<Utc>` is modelled as `Int` (seconds); `NOW()` is an explicit
  parameter `now`.  `Duration::hours(24)` is `86400`, `Duration::minutes(10)`
  is `600`.
* Database state is an explicit `Db` record of row lists; a SQL statement is a
  pure function on `Db`; a transaction is atomic by construction (an error
  return yields no new state, mirroring rollback-before-commit).
* Randomness (UUIDs, salts, token bytes) is passed in as parameters.
* The Argon2 PHC hash string is modelled by `HashStr`: a well-formed hash
  remembers the password and salt it was produced from (`parse` succeeds and
  verification succeeds exactly on the original password, the KDF contract);
  a malformed stored string fails to parse, mirroring
  `PasswordHash::new(..).map_err(..)`.
-/

/-- Embedding of `AppError` from `src/backend/src/error.rs` (the variants reachable in the
embedded handlers; `Sqlx(RowNotFound)` is folded into `notFound` with the
message `"resource not found"`, exactly as `AppError::message` renders it). -/
inductive AppError
  | notFound (message : String)
  | validation (message : String)
  | unauthorized (message : String)
  | internal (message : String)
  deriving Repr, DecidableEq

/-- Embedding of `AppError::status_code` from `src/backend/src/error.rs`. -/
def status_code : AppError → Nat
  | .notFound _ => 404
  | .validation _ => 400
  | .unauthorized _ => 401
  | .internal _ => 500

/-- The human-readable message carried by an error (`AppError::message`). -/
def error_message : AppError → String
  | .notFound m => m
  | .validation m => m
  | .unauthorized m => m
  | .internal m => m

/-- Embedding of `AccountType` from `src/backend/src/models.rs`. -/
inductive AccountType
  | Admin
  | Organizer
  deriving Repr, DecidableEq, BEq

/-- Embedding of `AuditType` from `src/backend/src/models.rs`. -/
inductive AuditType
  | Create
  | Update
  | Delete
  deriving Repr, DecidableEq, BEq

/-- Model of a stored Argon2 PHC hash string: either a well-formed hash
produced by `Argon2::hash_password` (remembering password and salt), or a
malformed string that `PasswordHash::new` rejects. -/
inductive HashStr
  | phc (password : String) (salt : Nat)
  | malformed (raw : String)
  deriving Repr, DecidableEq, BEq

/-- A successfully parsed hash (`PasswordHash::new(..).ok()`). -/
structure ParsedHash where
  password : String
  salt : Nat
  deriving Repr, DecidableEq

/-- Embedding of `PasswordHash::new` on the stored string: succeeds iff well formed. -/
def parse_password_hash : HashStr → Option ParsedHash
  | .phc pw s => some ⟨pw, s⟩
  | .malformed _ => none

/-- Embedding of `Argon2::default().verify_password`: succeeds exactly on the password the
hash was derived from (the KDF contract). -/
def verify_password (candidate : String) (h : ParsedHash) : Bool :=
  h.password == candidate

/-- Embedding of `Argon2::default().hash_password` with an explicit salt. -/
def hash_password (password : String) (salt : Nat) : HashStr :=
  .phc password salt

/-! Password policy engine (`ensure_password_requirements`, auth.rs 495-550) -/

/-- Embedding of `HighSecurityPolicy { min_length: 20, .. }` (auth.rs 496-499). -/
def policy_min_length : Nat := 20

/-- Modelled from the spec: the `password_policy` crate (its
`COMMON_PASSWORDS` list) is not among the sources under verification; the
spec describes it as a "common-password blocklist" whose entries are matched
as substrings of the lowercased candidate.  A representative blocklist. -/
def COMMON_PASSWORDS : List String :=
  ["password", "123456", "qwerty", "letmein", "welcome", "admin"]

/-- Whether `needle` occurs at the front of `hay` (character lists). -/
def startsWithCh : List Char → List Char → Bool
  | [], _ => true
  | _ :: _, [] => false
  | a :: as, b :: bs => a == b && startsWithCh as bs

/-- Whether `needle` occurs as a contiguous substring of `hay`
(`str::contains` on the lowercased password). -/
def containsSub (needle : List Char) : List Char → Bool
  | [] => startsWithCh needle []
  | b :: bs => startsWithCh needle (b :: bs) || containsSub needle bs

/-- Embedding of `password.to_lowercase()` restricted to ASCII (the passwords considered
here are ASCII, on which Rust and Lean lowercasing agree). -/
def lowercased (p : String) : String :=
  String.mk (p.toList.map Char.toLower)

/-- Modelled from the spec: the character pool backing the
"character-class-weighted bit estimate" — the sizes of the character classes
present in the candidate. -/
def char_pool_size (password : String) : Nat :=
  (if password.toList.any Char.isLower then 26 else 0) +
  (if password.toList.any Char.isUpper then 26 else 0) +
  (if password.toList.any Char.isDigit then 10 else 0) +
  (if password.toList.any (fun c => !c.isAlphanum) then 32 else 0)

/-- Modelled from the spec: `HighSecurityPolicy::min_entropy`, the minimum
entropy threshold in bits. -/
def policy_min_entropy : Nat := 60

/-- Floor of the base-2 logarithm, for arguments below 128 (the character
pool never exceeds 94). -/
def pool_bits (n : Nat) : Nat :=
  if 64 ≤ n then 6
  else if 32 ≤ n then 5
  else if 16 ≤ n then 4
  else if 8 ≤ n then 3
  else if 4 ≤ n then 2
  else if 2 ≤ n then 1
  else 0

/-- Modelled from the spec: `PasswordPolicy::meets_requirements` — the
length-times-log2-of-pool bit estimate must reach the threshold. -/
def meets_requirements (password : String) : Bool :=
  decide (policy_min_entropy ≤ password.length * pool_bits (char_pool_size password))

/-- Embedding of `ensure_password_requirements` (auth.rs 495-550): the seven rules checked
in source order, first violation wins. -/
def ensure_password_requirements (password : String) : Except AppError Unit :=
  if password.length < policy_min_length then
    .error (.validation "password must be at least 20 characters long")
  else if !(password.toList.any Char.isLower) then
    .error (.validation "password must include at least one lowercase letter")
  else if !(password.toList.any Char.isUpper) then
    .error (.validation "password must include at least one uppercase letter")
  else if !(password.toList.any Char.isDigit) then
    .error (.validation "password must include at least one number")
  else if !(password.toList.any (fun c => !c.isAlphanum)) then
    .error (.validation "password must include at least one symbol")
  else if COMMON_PASSWORDS.any (fun cand => containsSub cand.toList (lowercased password).toList) then
    .error (.validation "password is too common or predictable")
  else if !(meets_requirements password) then
    .error (.validation "password must provide at least 60 bits of entropy")
  else
    .ok ()

/-! Spec-side restatement of the policy for the refinement claim C5: the
rules as an ordered list, the outcome being determined by the first rule that
fails ("first rule violated wins; do not aggregate"). -/

/-- The individual rules of §4.1 of the spec, in the spec's order. -/
inductive PolicyRule
  | minLength
  | hasLower
  | hasUpper
  | hasDigit
  | hasSymbol
  | blocklist
  | entropy
  deriving Repr, DecidableEq

/-- Spec-side: whether a single rule holds of the candidate. -/
def policyRuleHolds (p : String) : PolicyRule → Bool
  | .minLength => !(p.length < policy_min_length)
  | .hasLower => p.toList.any Char.isLower
  | .hasUpper => p.toList.any Char.isUpper
  | .hasDigit => p.toList.any Char.isDigit
  | .hasSymbol => p.toList.any (fun c => !c.isAlphanum)
  | .blocklist => !(COMMON_PASSWORDS.any (fun cand => containsSub cand.toList (lowercased p).toList))
  | .entropy => meets_requirements p

/-- Spec-side: the fixed evaluation order of the rules. -/
def policyRuleOrder : List PolicyRule :=
  [.minLength, .hasLower, .hasUpper, .hasDigit, .hasSymbol, .blocklist, .entropy]

/-- Spec-side: the first violated rule, if any. -/
def specFirstViolation (p : String) : Option PolicyRule :=
  policyRuleOrder.find? (fun r => !(policyRuleHolds p r))

/-- The `Validation` message naming each rule. -/
def policyRuleMessage : PolicyRule → String
  | .minLength => "password must be at least 20 characters long"
  | .hasLower => "password must include at least one lowercase letter"
  | .hasUpper => "password must include at least one uppercase letter"
  | .hasDigit => "password must include at least one number"
  | .hasSymbol => "password must include at least one symbol"
  | .blocklist => "password is too common or predictable"
  | .entropy => "password must provide at least 60 bits of entropy"

/-- Spec-side: outcome determined by the first violated rule alone. -/
def spec_policy_outcome (p : String) : Except AppError Unit :=
  match specFirstViolation p with
  | none => .ok ()
  | some r => .error (.validation (policyRuleMessage r))

/-! Data model (`accounts`, `sessions`, `password_reset_tokens`, `events`,
`audit_log`) -/

/-- A row of `accounts` (models.rs plus the token/credential columns used by
auth.rs). -/
structure Account where
  id : Int
  account_type : AccountType
  organizer_id : Option Int
  display_name : String
  email : Option String
  password_hash : Option HashStr
  setup_token : Option String
  setup_token_expires_at : Option Int
  deriving Repr, DecidableEq

/-- A row of `sessions` (`id` is the parsed session UUID). -/
structure Session where
  id : Nat
  account_id : Int
  expires_at : Int
  deriving Repr, DecidableEq

/-- A row of `password_reset_tokens` (models.rs `PasswordResetToken`). -/
structure ResetToken where
  id : Int
  account_id : Int
  token : String
  expires_at : Int
  used_at : Option Int
  deriving Repr, DecidableEq

/-- A row of `events` (models.rs `Event`). -/
structure EventRow where
  id : Int
  organizer_id : Int
  title_de : String
  title_en : String
  description_de : Option String
  description_en : Option String
  start_date_time : Int
  end_date_time : Option Int
  event_url : Option String
  location : Option String
  publish_app : Bool
  publish_newsletter : Bool
  publish_in_ical : Bool
  publish_web : Bool
  created_at : Int
  updated_at : Int
  deriving Repr, DecidableEq

/-- A row of `audit_log` (models.rs `AuditLogEntry`; `audit_type` models the
`type` column, and the JSON snapshots are modelled by the serialized event
row itself, `None` standing for SQL `NULL`). -/
structure AuditRow where
  event_id : Int
  organizer_id : Int
  user_id : Int
  audit_type : AuditType
  old_data : Option EventRow
  new_data : Option EventRow
  deriving Repr, DecidableEq

/-- The database state shared by all handlers. -/
structure Db where
  accounts : List Account
  sessions : List Session
  reset_tokens : List ResetToken
  events : List EventRow
  audit_log : List AuditRow
  deriving Repr, DecidableEq

/-- Embedding of `AuthedUser` from shared.rs. -/
structure AuthedUser where
  account_id : Int
  account_type : AccountType
  organizer_id : Option Int
  deriving Repr, DecidableEq

/-- Embedding of `AuthedUser::is_admin`. -/
def AuthedUser.is_admin (u : AuthedUser) : Bool :=
  u.account_type == .Admin

/-! Session manager -/

/-- Embedding of `current_user_from_headers` (shared.rs 25-57) after cookie extraction and
UUID parsing: looks up the unexpired session joined to its account
(`WHERE s.id = $1 AND s.expires_at > NOW()` joined on `accounts`); any miss
is `Unauthorized`. -/
def current_user_from_session (db : Db) (sessionId : Nat) (now : Int) :
    Except AppError AuthedUser :=
  match db.sessions.find? (fun s => s.id == sessionId && decide (now < s.expires_at)) with
  | none => .error (.unauthorized "invalid or expired session")
  | some s =>
    match db.accounts.find? (fun a => a.id == s.account_id) with
    | none => .error (.unauthorized "invalid or expired session")
    | some a => .ok ⟨a.id, a.account_type, a.organizer_id⟩

/-- Session TTL: `Duration::hours(24)` in seconds. -/
def session_ttl : Int := 86400

/-- Embedding of `login` (auth.rs 43-129).  `newSessionId` stands for the fresh
`Uuid::new_v4()`.  Returns the updated database and the authenticated user
(status 200); every failure is `Unauthorized "invalid e-mail or password"`. -/
def login (db : Db) (email password : String) (newSessionId : Nat) (now : Int) :
    Except AppError (Db × AuthedUser) :=
  match db.accounts.find? (fun a => a.email == some email) with
  | none => .error (.unauthorized "invalid e-mail or password")
  | some row =>
    match row.password_hash with
    | none => .error (.unauthorized "invalid e-mail or password")
    | some stored =>
      match parse_password_hash stored with
      | none => .error (.unauthorized "invalid e-mail or password")
      | some parsed =>
        if verify_password password parsed then
          .ok ({ db with
                  sessions := db.sessions ++ [⟨newSessionId, row.id, now + session_ttl⟩] },
               ⟨row.id, row.account_type, row.organizer_id⟩)
        else
          .error (.unauthorized "invalid e-mail or password")

/-! Invitation lifecycle -/

/-- Embedding of `PendingSetupToken` (auth.rs 434-439). -/
structure PendingSetupToken where
  account_id : Int
  display_name : String
  account_type : AccountType
  organizer_id : Option Int
  deriving Repr, DecidableEq

/-- The `token.replace(' ', "+")` normalization at the top of
`ensure_pending_setup_token` (auth.rs 452). -/
def normalize_setup_token (token : String) : String :=
  String.mk (token.toList.map (fun c => if c == ' ' then '+' else c))

/-- Embedding of `ensure_pending_setup_token` (auth.rs 441-493): select the account by
`setup_token`, then check expiry, then check the account is still
uninitialized.  Three distinct `Validation` messages. -/
def ensure_pending_setup_token (db : Db) (token : String) (now : Int) :
    Except AppError PendingSetupToken :=
  let normalized := normalize_setup_token token
  match db.accounts.find? (fun a => a.setup_token == some normalized) with
  | none => .error (.validation "invalid setup token")
  | some row =>
    match row.setup_token_expires_at with
    | some whenTs =>
      if now < whenTs then
        if row.password_hash.isSome then
          .error (.validation "account already initialized")
        else
          .ok ⟨row.id, row.display_name, row.account_type, row.organizer_id⟩
      else
        .error (.validation "setup token expired")
    | none => .error (.validation "setup token expired")

/-- Embedding of `SetupTokenInfoResponse` (responses.rs). -/
structure SetupTokenInfoResponse where
  account_name : String
  account_type : AccountType
  deriving Repr, DecidableEq

/-- Embedding of `lookup_setup_token` (auth.rs 142-156), the `/auth/register-info`
handler. -/
def lookup_setup_token (db : Db) (token : String) (now : Int) :
    Except AppError SetupTokenInfoResponse := do
  let p ← ensure_pending_setup_token db token now
  .ok ⟨p.display_name, p.account_type⟩

/-- The row condition of the `UPDATE accounts SET email = .., password_hash
= .., setup_token = NULL, setup_token_expires_at = NULL .. WHERE id = $3`
statement in `init_account` (auth.rs 189-204): it matches on the account id
alone. -/
def init_account_update_matches (accountId : Int) (a : Account) : Bool :=
  a.id == accountId

/-- The number of `accounts` rows affected by `init_account`'s UPDATE. -/
def init_account_rows_affected (db : Db) (accountId : Int) : Nat :=
  (db.accounts.filter (init_account_update_matches accountId)).length

/-- Embedding of `init_account` (auth.rs 169-264), the `/auth/init` handler: validates the
setup token with a separate read (`ensure_pending_setup_token`), checks the
password policy, hashes, then runs the unconditional UPDATE keyed on the
account id (clearing `setup_token` and its expiry), inserts a session, and
returns the authenticated user.  The affected-row count of the UPDATE is not
inspected. -/
def init_account (db : Db) (token email password : String) (salt sessionId : Nat)
    (now : Int) : Except AppError (Db × AuthedUser) := do
  let pending ← ensure_pending_setup_token db token now
  let _ ← ensure_password_requirements password
  let h := hash_password password salt
  let accounts' := db.accounts.map (fun a =>
    if init_account_update_matches pending.account_id a then
      { a with
          email := some email
          password_hash := some h
          setup_token := none
          setup_token_expires_at := none }
    else a)
  let db' := { db with accounts := accounts' }
  let db'' := { db' with
    sessions := db'.sessions ++ [⟨sessionId, pending.account_id, now + session_ttl⟩] }
  .ok (db'', ⟨pending.account_id, pending.account_type, pending.organizer_id⟩)

/-! Password change and reset -/

/-- Embedding of `change_password` (auth.rs 383-432), the `/auth/change-password` handler:
resolve the session, fetch the stored hash, verify the current password,
validate the new one, then in one transaction update the hash and delete all
sessions of the account.  Returns the committed database (status 204). -/
def change_password (db : Db) (sessionId : Nat) (currentPassword newPassword : String)
    (salt : Nat) (now : Int) : Except AppError Db := do
  let user ← current_user_from_session db sessionId now
  match db.accounts.find? (fun a => a.id == user.account_id) with
  | none => .error (.notFound "resource not found")
  | some acct =>
    match acct.password_hash with
    | none => .error (.validation "account not initialized")
    | some stored =>
      match parse_password_hash stored with
      | none => .error (.unauthorized "invalid current password")
      | some parsed =>
        if verify_password currentPassword parsed then do
          let _ ← ensure_password_requirements newPassword
          let newHash := hash_password newPassword salt
          let accounts' := db.accounts.map (fun a =>
            if a.id == user.account_id then { a with password_hash := some newHash } else a)
          let sessions' := db.sessions.filter (fun s => !(s.account_id == user.account_id))
          .ok { db with accounts := accounts', sessions := sessions' }
        else
          .error (.unauthorized "invalid current password")

/-- Reset-token TTL: `Duration::minutes(10)` in seconds. -/
def reset_token_ttl : Int := 600

/-- Embedding of `request_password_reset` (auth.rs 563-633), the
`/auth/request-password-reset` handler: looks up an initialized account by
email (`password_hash IS NOT NULL`); if found, deletes that account's
existing reset tokens and inserts a fresh one (value and id supplied as the
CSPRNG/sequence parameters); the email send is best-effort and out of scope.
Always returns status 204 with an empty body. -/
def request_password_reset (db : Db) (email resetTokenValue : String)
    (newTokenId : Int) (now : Int) : Nat × Db :=
  match db.accounts.find? (fun a => a.email == some email && a.password_hash.isSome) with
  | none => (204, db)
  | some row =>
    let tokens' := (db.reset_tokens.filter (fun t => !(t.account_id == row.id))) ++
      [⟨newTokenId, row.id, resetTokenValue, now + reset_token_ttl, none⟩]
    (204, { db with reset_tokens := tokens' })

/-- Embedding of `reset_password` (auth.rs 646-713), the `/auth/reset-password` handler:
select the reset token joined to its account with
`token = $1 AND expires_at > NOW() AND used_at IS NULL`; validate the new
password; then in one transaction set the account's hash, mark the token
used, and delete every session of the account. -/
def reset_password (db : Db) (token newPassword : String) (salt : Nat) (now : Int) :
    Except AppError Db :=
  match db.reset_tokens.find? (fun rt =>
      rt.token == token && decide (now < rt.expires_at) && rt.used_at == none) with
  | none => .error (.validation "Invalid or expired reset token")
  | some rt =>
    match db.accounts.find? (fun a => a.id == rt.account_id) with
    | none => .error (.validation "Invalid or expired reset token")
    | some _acct => do
      let _ ← ensure_password_requirements newPassword
      let newHash := hash_password newPassword salt
      let accounts' := db.accounts.map (fun a =>
        if a.id == rt.account_id then { a with password_hash := some newHash } else a)
      let tokens' := db.reset_tokens.map (fun t =>
        if t.id == rt.id then { t with used_at := some now } else t)
      let sessions' := db.sessions.filter (fun s => !(s.account_id == rt.account_id))
      .ok { db with accounts := accounts', reset_tokens := tokens', sessions := sessions' }

/-! Setup-token generation (shared.rs 84-91) -/

/-- The standard base64 alphabet used by `general_purpose::STANDARD`. -/
def base64_std_alphabet : List Char :=
  "ABCDEFGHIJKLMNOPQRSTUVWXYZabcdefghijklmnopqrstuvwxyz0123456789+/".toList

/-- The character for a 6-bit group. -/
def b64char (n : Nat) : Char :=
  base64_std_alphabet.getD n 'A'

/-- Embedding of `general_purpose::STANDARD.encode` over a byte list (values < 256),
including `=` padding. -/
def base64_std_encode : List Nat → List Char
  | [] => []
  | [b1] => [b64char (b1 / 4), b64char (b1 % 4 * 16), '=', '=']
  | [b1, b2] => [b64char (b1 / 4), b64char (b1 % 4 * 16 + b2 / 16), b64char (b2 % 16 * 4), '=']
  | b1 :: b2 :: b3 :: rest =>
    b64char (b1 / 4) :: b64char (b1 % 4 * 16 + b2 / 16) ::
    b64char (b2 % 16 * 4 + b3 / 64) :: b64char (b3 % 64) :: base64_std_encode rest

/-- Embedding of `generate_setup_token_value` (shared.rs 84-91): standard (not URL-safe)
base64 of 32 CSPRNG bytes, the bytes passed in as the randomness
parameter. -/
def generate_setup_token_value (randomBytes : List Nat) : String :=
  String.mk (base64_std_encode randomBytes)

/-- The characters that survive URL transport without escaping, as the claim
words it: the URL-safe base64 alphabet (letters, digits, `-`, `_`). -/
def url_safe_char (c : Char) : Bool :=
  c.isAlphanum || c == '-' || c == '_'

/-! Event handlers and the audit trail (events.rs) -/

/-- Embedding of `CreateEventRequest` (dto.rs 54-71). -/
structure CreateEventRequest where
  title_de : String
  title_en : String
  description_de : Option String
  description_en : Option String
  start_date_time : Int
  end_date_time : Int
  event_url : Option String
  location : Option String
  publish_app : Bool
  publish_newsletter : Bool
  publish_in_ical : Bool
  publish_web : Bool
  deriving Repr, DecidableEq

/-- Embedding of `UpdateEventRequest` (dto.rs 75-88). -/
structure UpdateEventRequest where
  title_de : Option String
  title_en : Option String
  description_de : Option String
  description_en : Option String
  start_date_time : Option Int
  end_date_time : Option Int
  event_url : Option String
  location : Option String
  publish_app : Option Bool
  publish_newsletter : Option Bool
  publish_in_ical : Option Bool
  publish_web : Option Bool
  deriving Repr, DecidableEq

/-- Embedding of `UpdateEventRequest::has_updates` (dto.rs 91-104). -/
def UpdateEventRequest.has_updates (p : UpdateEventRequest) : Bool :=
  p.title_de.isSome || p.title_en.isSome || p.description_de.isSome ||
  p.description_en.isSome || p.start_date_time.isSome || p.end_date_time.isSome ||
  p.event_url.isSome || p.location.isSome || p.publish_app.isSome ||
  p.publish_newsletter.isSome || p.publish_in_ical.isSome || p.publish_web.isSome

/-- Embedding of `record_audit` (events.rs 1057-1091): serializes the snapshots and
appends exactly one `audit_log` row on the transaction in progress. -/
def record_audit (db : Db) (event_id organizer_id user_id : Int) (audit_type : AuditType)
    (old_data new_data : Option EventRow) : Db :=
  { db with audit_log := db.audit_log ++
      [⟨event_id, organizer_id, user_id, audit_type, old_data, new_data⟩] }

/-- Embedding of `create_event` (events.rs 94-158): requires an authenticated account with
an `organizer_id`; in one transaction inserts the event (the DB-assigned id
passed as `newEventId`) and records a `Create` audit entry with no old
snapshot. -/
def create_event (db : Db) (sessionId : Nat) (payload : CreateEventRequest)
    (newEventId : Int) (now : Int) : Except AppError (Db × EventRow) := do
  let user ← current_user_from_session db sessionId now
  match user.organizer_id with
  | none => .error (.unauthorized "organizer account required")
  | some oid =>
    let event : EventRow :=
      { id := newEventId
        organizer_id := oid
        title_de := payload.title_de
        title_en := payload.title_en
        description_de := payload.description_de
        description_en := payload.description_en
        start_date_time := payload.start_date_time
        end_date_time := some payload.end_date_time
        event_url := payload.event_url
        location := payload.location
        publish_app := payload.publish_app
        publish_newsletter := payload.publish_newsletter
        publish_in_ical := payload.publish_in_ical
        publish_web := payload.publish_web
        created_at := now
        updated_at := now }
    let db1 := { db with events := db.events ++ [event] }
    let db2 := record_audit db1 event.id event.organizer_id user.account_id
      .Create none (some event)
    .ok (db2, event)

/-- Embedding of `get_event` (events.rs 168-198): fetch by id (absent ⇒ `NotFound`), then
authenticate, then allow admins and the owning organizer — any other
authenticated principal receives the same `NotFound "event not found"` as a
missing event. -/
def get_event (db : Db) (sessionId : Nat) (id : Int) (now : Int) :
    Except AppError EventRow :=
  match db.events.find? (fun e => e.id == id) with
  | none => .error (.notFound "event not found")
  | some event => do
    let user ← current_user_from_session db sessionId now
    if user.is_admin || user.organizer_id == some event.organizer_id then
      .ok event
    else
      .error (.notFound "event not found")

/-- The dynamic `UPDATE events SET ..` built in `update_event`
(events.rs 271-320): each present payload field overwrites the column,
`updated_at = NOW()` always. -/
def apply_event_update (payload : UpdateEventRequest) (e : EventRow) (now : Int) :
    EventRow :=
  { e with
      title_de := payload.title_de.getD e.title_de
      title_en := payload.title_en.getD e.title_en
      description_de := payload.description_de.orElse (fun _ => e.description_de)
      description_en := payload.description_en.orElse (fun _ => e.description_en)
      start_date_time := payload.start_date_time.getD e.start_date_time
      end_date_time := (payload.end_date_time.map some).getD e.end_date_time
      event_url := payload.event_url.orElse (fun _ => e.event_url)
      location := payload.location.orElse (fun _ => e.location)
      publish_app := payload.publish_app.getD e.publish_app
      publish_newsletter := payload.publish_newsletter.getD e.publish_newsletter
      publish_in_ical := payload.publish_in_ical.getD e.publish_in_ical
      publish_web := payload.publish_web.getD e.publish_web
      updated_at := now }

/-- Embedding of `update_event` (events.rs 209-341): authenticate; non-admins need an
`organizer_id`; reject an empty payload; in one transaction fetch the
existing row (`fetch_one`, absent ⇒ sqlx `RowNotFound`, rendered `NotFound
"resource not found"`), enforce ownership for non-admins with `Unauthorized`,
apply the dynamic update, and record an `Update` audit entry carrying both
snapshots. -/
def update_event (db : Db) (sessionId : Nat) (id : Int) (payload : UpdateEventRequest)
    (now : Int) : Except AppError (Db × EventRow) := do
  let user ← current_user_from_session db sessionId now
  let gate : Option Int ←
    if user.is_admin then
      pure none
    else
      match user.organizer_id with
      | none => .error (.unauthorized "organizer account required")
      | some oid => pure (some oid)
  if !payload.has_updates then
    .error (.validation "No fields supplied for update")
  else
    match db.events.find? (fun e => e.id == id) with
    | none => .error (.notFound "resource not found")
    | some existing =>
      if gate.any (fun oid => !(existing.organizer_id == oid)) then
        .error (.unauthorized "cannot update another organizer's event")
      else
        let updated := apply_event_update payload existing now
        let db1 := { db with events := db.events.map (fun e => if e.id == id then updated else e) }
        let db2 := record_audit db1 updated.id updated.organizer_id user.account_id
          .Update (some existing) (some updated)
        .ok (db2, updated)

/-- Embedding of `delete_event` (events.rs 351-412): authenticate; non-admins need an
`organizer_id`; in one transaction fetch the existing row (absent ⇒
`NotFound "Event not found"`), enforce ownership for non-admins with
`Unauthorized`, delete the row, and record a `Delete` audit entry with no new
snapshot. -/
def delete_event (db : Db) (sessionId : Nat) (id : Int) (now : Int) :
    Except AppError Db := do
  let user ← current_user_from_session db sessionId now
  let gate : Option Int ←
    if user.is_admin then
      pure none
    else
      match user.organizer_id with
      | none => .error (.unauthorized "organizer account required")
      | some oid => pure (some oid)
  match db.events.find? (fun e => e.id == id) with
  | none => .error (.notFound "Event not found")
  | some existing =>
    if gate.any (fun oid => !(existing.organizer_id == oid)) then
      .error (.unauthorized "cannot delete another organizer's event")
    else
      let db1 := { db with events := db.events.filter (fun e => !(e.id == id)) }
      let db2 := record_audit db1 existing.id existing.organizer_id user.account_id
        .Delete (some existing) none
      .ok db2

/-- Primary-key well-formedness of the session table: session ids are
pairwise distinct. -/
def unique_session_ids (db : Db) : Prop :=
  (db.sessions.map Session.id).Nodup

/-- The reset-token lookup condition of `reset_password` (auth.rs 651-661):
`token = $1 AND expires_at > NOW() AND used_at IS NULL`. -/
def reset_lookup_pred (token : String) (now : Int) (t : ResetToken) : Bool :=
  t.token == token && decide (now < t.expires_at) && t.used_at == none

/-! Concrete fixtures used by the witnesses and counterexamples below -/

/-- A policy-compliant 20-character password. -/
def pwOld : String := "Qx7!Qx7!Qx7!Qx7!Qx7!"

/-- A policy-compliant 24-character password with all four classes. -/
def pwNew : String := "Qx7!Qx7!Qx7!Qx7!Qx7!Qx7!"

/-- An initialized organizer account (organizer 20). -/
def orgAccount : Account :=
  ⟨2, .Organizer, some 20, "Debate Club", some "club@uni.example",
    some (hash_password pwOld 11), none, none⟩

/-- A live session of `orgAccount`. -/
def orgSession : Session := ⟨5, 2, 100⟩

/-- An event owned by a different organizer (10). -/
def otherEvent : EventRow :=
  { id := 7, organizer_id := 10, title_de := "Fremdes Event", title_en := "Foreign event"
    description_de := none, description_en := none, start_date_time := 50
    end_date_time := none, event_url := none, location := none
    publish_app := true, publish_newsletter := true, publish_in_ical := true
    publish_web := true, created_at := 0, updated_at := 0 }

/-- An event owned by `orgAccount`'s organizer (20). -/
def ownEvent : EventRow :=
  { id := 8, organizer_id := 20, title_de := "Eigenes Event", title_en := "Own event"
    description_de := none, description_en := none, start_date_time := 60
    end_date_time := none, event_url := none, location := none
    publish_app := true, publish_newsletter := true, publish_in_ical := true
    publish_web := true, created_at := 0, updated_at := 0 }

/-- The base state: one organizer account with one session and two events. -/
def baseDb : Db := ⟨[orgAccount], [orgSession], [], [otherEvent, ownEvent], []⟩

/-- An empty database. -/
def emptyDb : Db := ⟨[], [], [], [], []⟩

/-- A pending (uninitialized) invited account with a live setup token. -/
def pendingAccount : Account :=
  ⟨6, .Organizer, some 60, "Pending Club", none, none, some "PTOK", some 1000⟩

/-- A database holding only the pending account. -/
def pendingDb : Db := ⟨[pendingAccount], [], [], [], []⟩

/-- An account whose setup token expired before `now = 0`. -/
def expiredAccount : Account :=
  ⟨7, .Organizer, some 70, "Expired Club", none, none, some "ETOK", some (-5)⟩

/-- An account that is already initialized while its setup token row is
still present. -/
def consumedAccount : Account :=
  ⟨8, .Organizer, some 80, "Done Club", some "done@uni.example",
    some (hash_password pwOld 13), some "CTOK", some 1000⟩

/-- A database with one expired and one consumed setup token. -/
def tokenStateDb : Db := ⟨[expiredAccount, consumedAccount], [], [], [], []⟩

/-- An initialized account with no setup token left (the post-`init` state). -/
def initializedAccount : Account :=
  ⟨9, .Organizer, some 90, "Init Club", some "init@uni.example",
    some (hash_password pwOld 14), none, none⟩

/-- An uninitialized account (no password hash yet). -/
def noHashAccount : Account :=
  ⟨3, .Organizer, some 30, "NoHash Club", some "nohash@uni.example", none,
    some "TOK3", some 1000⟩

/-- An account whose stored hash string is unparseable. -/
def badHashAccount : Account :=
  ⟨4, .Organizer, some 40, "BadHash Club", some "badhash@uni.example",
    some (.malformed "junk"), none, none⟩

/-- A live, unused reset token for `orgAccount`. -/
def resetTok : ResetToken := ⟨1, 2, "RTOK", 600, none⟩

/-- A state with the reset token and two sessions of the account. -/
def resetDb : Db := ⟨[orgAccount], [orgSession, ⟨9, 2, 100⟩], [resetTok], [], []⟩

/-- The reset token after consumption at `now = 0`. -/
def resetTokUsed : ResetToken := ⟨1, 2, "RTOK", 600, some 0⟩

/-- The organizer account after its password was reset to `pwNew`. -/
def orgAccountRehashed : Account :=
  ⟨2, .Organizer, some 20, "Debate Club", some "club@uni.example",
    some (hash_password pwNew 42), none, none⟩

/-- The committed state after `reset_password resetDb "RTOK" pwNew 42 0`. -/
def resetDbAfter : Db := ⟨[orgAccountRehashed], [], [resetTokUsed], [], []⟩

/-- The committed state after `change_password baseDb 5 pwOld pwNew 42 0`. -/
def changeDbAfter : Db := ⟨[orgAccountRehashed], [], [], [otherEvent, ownEvent], []⟩

/-- A create-event payload. -/
def createPayload : CreateEventRequest :=
  ⟨"Neues Event", "New event", none, none, 10, 20, none, none, true, true, true, true⟩

/-- The row `create_event` inserts for `createPayload` (DB id 100). -/
def createdEvent : EventRow :=
  ⟨100, 20, "Neues Event", "New event", none, none, 10, some 20, none, none,
    true, true, true, true, 0, 0⟩

/-- The committed state after the create. -/
def dbAfterCreate : Db :=
  ⟨[orgAccount], [orgSession], [], [otherEvent, ownEvent, createdEvent],
    [⟨100, 20, 2, .Create, none, some createdEvent⟩]⟩

/-- An update payload touching only the German title. -/
def updatePayload : UpdateEventRequest :=
  ⟨some "Geändert", none, none, none, none, none, none, none, none, none, none, none⟩

/-- The row after applying `updatePayload` to `ownEvent` at `now = 0`. -/
def updatedEvent : EventRow := { ownEvent with title_de := "Geändert", updated_at := 0 }

/-- The committed state after the update. -/
def dbAfterUpdate : Db :=
  ⟨[orgAccount], [orgSession], [], [otherEvent, updatedEvent],
    [⟨8, 20, 2, .Update, some ownEvent, some updatedEvent⟩]⟩

/-- The committed state after the delete of `ownEvent`. -/
def dbAfterDelete : Db :=
  ⟨[orgAccount], [orgSession], [], [otherEvent],
    [⟨8, 20, 2, .Delete, some ownEvent, none⟩]⟩

/-! Helper lemmas shared by the claim theorems -/

set_option maxHeartbeats 2000000 in
/-- The source policy check equals the spec-side first-violation outcome. -/
theorem policy_matches_spec (p : String) :
    ensure_password_requirements p = spec_policy_outcome p := by
  unfold ensure_password_requirements spec_policy_outcome specFirstViolation policyRuleOrder
  by_cases h1 : p.length < policy_min_length <;>
  cases h2 : p.toList.any Char.isLower <;>
  cases h3 : p.toList.any Char.isUpper <;>
  cases h4 : p.toList.any Char.isDigit <;>
  cases h5 : p.toList.any (fun c => !c.isAlphanum) <;>
  cases h6 : COMMON_PASSWORDS.any (fun cand => containsSub cand.toList (lowercased p).toList) <;>
  cases h7 : meets_requirements p <;>
    simp only [List.find?_cons, policyRuleHolds, h1, h2, h3, h4, h5, h6, h7, policyRuleMessage,
      Bool.not_true, Bool.not_false, Bool.not_not, if_pos, if_neg, decide_eq_true_eq,
      decide_eq_false_iff_not, ite_true, ite_false] <;>
    simp [h1, h2, h3, h4, h5, h6, h7, policyRuleMessage]

/-- Every failure of the policy check is a `Validation` error. -/
theorem ensure_password_error_shape (p : String) (e : AppError)
    (h : ensure_password_requirements p = .error e) : ∃ m, e = .validation m := by
  unfold ensure_password_requirements at h
  repeat' split at h
  all_goals first
  | (cases h; exact ⟨_, rfl⟩)
  | exact absurd h (by simp)

/-- Inversion of a successful `reset_password`: the token lookup succeeded
and the committed state carries the password update, the `used_at` mark and
the session purge together. -/
theorem reset_password_ok_inv (db : Db) (token newPassword : String) (salt : Nat)
    (now : Int) (db' : Db)
    (h : reset_password db token newPassword salt now = .ok db') :
    ∃ rt, db.reset_tokens.find? (reset_lookup_pred token now) = some rt ∧
      db' = { db with
        accounts := db.accounts.map (fun a =>
          if a.id == rt.account_id then
            { a with password_hash := some (hash_password newPassword salt) }
          else a)
        reset_tokens := db.reset_tokens.map (fun t =>
          if t.id == rt.id then { t with used_at := some now } else t)
        sessions := db.sessions.filter (fun s => !(s.account_id == rt.account_id)) } := by
  unfold reset_password at h
  split at h
  · exact absurd h (by simp)
  · rename_i rt hf
    split at h
    · exact absurd h (by simp)
    · rename_i acct ha
      simp only [Except.bind, Bind.bind] at h
      split at h
      · exact absurd h (by simp)
      · rw [Except.ok.injEq] at h
        exact ⟨rt, hf, h.symm⟩

/-- Inversion of a successful `change_password`: the session resolved and the
committed state carries the password update and the session purge together. -/
theorem change_password_ok_inv (db : Db) (sid : Nat) (cur new : String) (salt : Nat)
    (now : Int) (db' : Db)
    (h : change_password db sid cur new salt now = .ok db') :
    ∃ u, current_user_from_session db sid now = .ok u ∧
      db' = { db with
        accounts := db.accounts.map (fun a =>
          if a.id == u.account_id then
            { a with password_hash := some (hash_password new salt) }
          else a)
        sessions := db.sessions.filter (fun s => !(s.account_id == u.account_id)) } := by
  unfold change_password at h
  simp only [Except.bind, Bind.bind] at h
  split at h
  · exact absurd h (by simp)
  · rename_i u hu
    split at h
    · exact absurd h (by simp)
    · split at h
      · exact absurd h (by simp)
      · split at h
        · exact absurd h (by simp)
        · split at h
          · split at h
            · exact absurd h (by simp)
            · rw [Except.ok.injEq] at h
              exact ⟨u, hu, h.symm⟩
          · exact absurd h (by simp)

/-- After every session of an account is purged, no session of that account
can be found again (session ids are unique). -/
theorem purged_session_find_none (l : List Session) (aid : Int) (s : Session) (now2 : Int)
    (hnodup : (l.map Session.id).Nodup) (hs : s ∈ l) (hacc : s.account_id = aid) :
    (l.filter (fun t => !(t.account_id == aid))).find?
      (fun t => t.id == s.id && decide (now2 < t.expires_at)) = none := by
  rw [List.find?_eq_none]
  intro t ht
  rw [List.mem_filter] at ht
  obtain ⟨htl, hta⟩ := ht
  by_cases hid : t.id = s.id
  · have hts : t = s := List.inj_on_of_nodup_map hnodup htl hs hid
    subst hts
    simp [hacc] at hta
  · simp [hid]

/-- Every 6-bit group maps into the standard base64 alphabet. -/
theorem b64char_mem (n : Nat) (h : n < 64) : b64char n ∈ base64_std_alphabet := by
  revert n
  decide

/-! Claim theorems -/

/-- C1 (counterexample): the claim says `init_account`'s UPDATE "affect[s]
zero rows when the token has already been consumed".  For the concrete
already-initialized account `initializedAccount` (setup token cleared,
password hash set) the embedded UPDATE condition `WHERE id = $3` still
matches, so the statement affects one row, not zero. -/
theorem c1_counterexample :
    initializedAccount.setup_token = none ∧
    initializedAccount.password_hash.isSome = true ∧
    init_account_rows_affected ⟨[initializedAccount], [], [], [], []⟩ 9 = 1 :=
  ⟨rfl, rfl, rfl⟩

/-- C1 (amended): setup-token consumption in `init_account` is implemented as
a separate read followed by a write, not as a single conditional statement:
(1) the row condition of the UPDATE depends only on the account id — it is
unchanged under any modification of the email, credential and token columns,
so it does not become zero-row when the token is consumed and no
affects-zero-rows result is inspected; (2) the guard against a consumed or
invalid token is solely the preceding read `ensure_pending_setup_token`,
whose failure aborts the handler with the same error; (3) that read rejects
an account that already has a password hash with `Validation "account already
initialized"`. -/
theorem c1_read_then_write :
    (∀ (accountId : Int) (a : Account) em pw st ex,
      init_account_update_matches accountId
        { a with email := em, password_hash := pw, setup_token := st,
                 setup_token_expires_at := ex } =
      init_account_update_matches accountId a) ∧
    (∀ db token email pw salt sid now e,
      ensure_pending_setup_token db token now = .error e →
      init_account db token email pw salt sid now = .error e) ∧
    (∀ db token now row w,
      db.accounts.find? (fun a => a.setup_token == some (normalize_setup_token token)) =
        some row →
      row.setup_token_expires_at = some w → now < w → row.password_hash.isSome →
      ensure_pending_setup_token db token now =
        .error (.validation "account already initialized")) := by
  refine ⟨fun _ _ _ _ _ _ => rfl, ?_, ?_⟩
  · intro db token email pw salt sid now e h
    simp only [init_account, h, Except.bind, Bind.bind]
  · intro db token now row w h1 h2 h3 h4
    simp only [ensure_pending_setup_token, h1, h2, if_pos h3, h4, if_true]

/-- C1 (witness): concrete runs of the three amended conjuncts. -/
theorem c1_read_then_write_witness :
    init_account_update_matches 9
      { initializedAccount with
          email := some "other@uni.example"
          password_hash := none
          setup_token := some "T"
          setup_token_expires_at := some 5 } =
      init_account_update_matches 9 initializedAccount ∧
    init_account emptyDb "NOPE" "new@uni.example" pwNew 0 7 0 =
      .error (.validation "invalid setup token") ∧
    ensure_pending_setup_token tokenStateDb "CTOK" 0 =
      .error (.validation "account already initialized") := by
  refine ⟨?_, ?_, ?_⟩
  · exact c1_read_then_write.1 9 initializedAccount (some "other@uni.example") none
      (some "T") (some 5)
  · exact c1_read_then_write.2.1 emptyDb "NOPE" "new@uni.example" pwNew 0 7 0
      (.validation "invalid setup token") rfl
  · exact c1_read_then_write.2.2 tokenStateDb "CTOK" 0 consumedAccount 1000 rfl rfl
      (by decide) rfl

/-- C2: `reset_password` either fails with a `Validation` error (leaving the
state unchanged — an error return commits nothing in the atomic transaction
embedding), or in one transaction updates the account's hash, marks the token
used and purges the account's sessions.  A token that is used, expired or
absent is rejected with the `Validation` message, and — token values being
unique — a second `confirm` with the same token fails after a successful
first one. -/
theorem c2_reset_token_single_use :
    (∀ db token pw salt now e, reset_password db token pw salt now = .error e →
      ∃ m, e = .validation m) ∧
    (∀ db token pw salt now,
      (∀ rt ∈ db.reset_tokens, rt.token = token → rt.used_at ≠ none ∨ rt.expires_at ≤ now) →
      reset_password db token pw salt now =
        .error (.validation "Invalid or expired reset token")) ∧
    (∀ db token pw salt now db', reset_password db token pw salt now = .ok db' →
      ∃ rt, db.reset_tokens.find? (reset_lookup_pred token now) = some rt ∧
        db' = { db with
          accounts := db.accounts.map (fun a =>
            if a.id == rt.account_id then
              { a with password_hash := some (hash_password pw salt) }
            else a)
          reset_tokens := db.reset_tokens.map (fun t =>
            if t.id == rt.id then { t with used_at := some now } else t)
          sessions := db.sessions.filter (fun s => !(s.account_id == rt.account_id)) }) ∧
    (∀ db token pw pw2 salt salt2 now now2 db',
      (db.reset_tokens.map ResetToken.token).Nodup →
      reset_password db token pw salt now = .ok db' →
      reset_password db' token pw2 salt2 now2 =
        .error (.validation "Invalid or expired reset token")) := by
  refine ⟨?_, ?_, ?_, ?_⟩
  · intro db token pw salt now e h
    unfold reset_password at h
    split at h
    · exact ⟨"Invalid or expired reset token", by cases h; rfl⟩
    · split at h
      · exact ⟨"Invalid or expired reset token", by cases h; rfl⟩
      · simp only [Except.bind, Bind.bind] at h
        split at h
        · rename_i e' hp
          cases h
          exact ensure_password_error_shape pw _ hp
        · exact absurd h (by simp)
  · intro db token pw salt now hall
    have hnone : db.reset_tokens.find?
        (fun rt => rt.token == token && decide (now < rt.expires_at) && rt.used_at == none) =
        none := by
      rw [List.find?_eq_none]
      intro rt hm
      by_cases htk : rt.token = token
      · rcases hall rt hm htk with h | h
        · simp [htk, h]
        · simp only [Bool.and_eq_true, beq_iff_eq, decide_eq_true_eq, not_and]
          intro _
          omega
      · simp [htk]
    unfold reset_password
    rw [hnone]
  · intro db token pw salt now db' h
    exact reset_password_ok_inv db token pw salt now db' h
  · intro db token pw pw2 salt salt2 now now2 db' hnodup h
    obtain ⟨rt, hf, hdb'⟩ := reset_password_ok_inv db token pw salt now db' h
    have hrtmem := List.mem_of_find?_eq_some hf
    have hrtp := List.find?_some hf
    unfold reset_lookup_pred at hrtp
    simp only [Bool.and_eq_true, beq_iff_eq, decide_eq_true_eq] at hrtp
    obtain ⟨⟨hrtok, _⟩, _⟩ := hrtp
    have hnone : db'.reset_tokens.find?
        (fun t => t.token == token && decide (now2 < t.expires_at) && t.used_at == none) =
        none := by
      rw [List.find?_eq_none]
      intro t' hm'
      rw [hdb'] at hm'
      simp only [List.mem_map] at hm'
      obtain ⟨t, htm, rfl⟩ := hm'
      by_cases hid : (t.id == rt.id) = true
      · rw [if_pos hid]
        simp
      · rw [if_neg hid]
        simp only [Bool.and_eq_true, beq_iff_eq, decide_eq_true_eq, not_and]
        intro ⟨htk, _⟩
        exfalso
        exact hid (by
          rw [List.inj_on_of_nodup_map hnodup htm hrtmem (by rw [htk, hrtok])]
          exact beq_self_eq_true rt.id)
    unfold reset_password
    rw [hnone]

/-- C2 (witness): a concrete successful reset, after which a second confirm
with the same token fails; the lookup that backed the success. -/
theorem c2_reset_token_single_use_witness :
    reset_password resetDbAfter "RTOK" pwOld 0 1 =
      .error (.validation "Invalid or expired reset token") ∧
    reset_password resetDbAfter "RTOK" pwNew 0 1 =
      .error (.validation "Invalid or expired reset token") ∧
    resetDb.reset_tokens.find? (reset_lookup_pred "RTOK" 0) = some resetTok := by
  refine ⟨?_, ?_, ?_⟩
  · exact c2_reset_token_single_use.2.2.2 resetDb "RTOK" pwNew pwOld 42 0 0 1 resetDbAfter
      (by decide) rfl
  · exact c2_reset_token_single_use.2.1 resetDbAfter "RTOK" pwNew 0 1 (by decide)
  · obtain ⟨rt, hf, _⟩ := c2_reset_token_single_use.2.2.1 resetDb "RTOK" pwNew 42 0
      resetDbAfter rfl
    have hrt : some rt = some resetTok := hf.symm.trans rfl
    rw [hrt] at hf
    exact hf

/-- C3: `request_password_reset` returns status 204 with an empty body for
every submitted email, whether or not an initialized account with that email
exists — the two runs are indistinguishable to the caller. -/
theorem c3_reset_request_enumeration_resistant :
    ∀ db email tok tid now, (request_password_reset db email tok tid now).1 = 204 := by
  intro db email tok tid now
  unfold request_password_reset
  cases db.accounts.find? (fun a => a.email == some email && a.password_hash.isSome) <;> rfl

/-- C4: every committed event mutation appends exactly one audit row inside
the same transaction (the committed state is produced together with the
mutation; an error return commits neither), and the snapshot nullability
matches the mutation type: `Create` carries `old = none, new = some`,
`Update` carries both, `Delete` carries `old = some, new = none`. -/
theorem c4_audit_row_per_mutation :
    (∀ db sid payload nid now db' ev,
      create_event db sid payload nid now = .ok (db', ev) →
      ∃ u, current_user_from_session db sid now = .ok u ∧
        db'.audit_log = db.audit_log ++
          [⟨ev.id, ev.organizer_id, u.account_id, .Create, none, some ev⟩]) ∧
    (∀ db sid id payload now db' ev,
      update_event db sid id payload now = .ok (db', ev) →
      ∃ u existing, current_user_from_session db sid now = .ok u ∧
        db.events.find? (fun e => e.id == id) = some existing ∧
        db'.audit_log = db.audit_log ++
          [⟨ev.id, ev.organizer_id, u.account_id, .Update, some existing, some ev⟩]) ∧
    (∀ db sid id now db',
      delete_event db sid id now = .ok db' →
      ∃ u existing, current_user_from_session db sid now = .ok u ∧
        db.events.find? (fun e => e.id == id) = some existing ∧
        db'.audit_log = db.audit_log ++
          [⟨existing.id, existing.organizer_id, u.account_id, .Delete, some existing, none⟩]) := by
  refine ⟨?_, ?_, ?_⟩
  · intro db sid payload nid now db' ev h
    unfold create_event at h
    rcases hcu : current_user_from_session db sid now with e | u <;>
      rw [hcu] at h <;> simp only [Except.bind, Bind.bind] at h
    · exact absurd h (by simp)
    · rcases ho : u.organizer_id with _ | oid <;> rw [ho] at h
      · exact absurd h (by simp)
      · refine ⟨u, rfl, ?_⟩
        rw [Except.ok.injEq, Prod.mk.injEq] at h
        obtain ⟨hdb, hev⟩ := h
        subst hdb hev
        rfl
  · intro db sid id payload now db' ev h
    unfold update_event at h
    rcases hcu : current_user_from_session db sid now with e | u <;>
      rw [hcu] at h <;> simp only [Except.bind, Bind.bind] at h
    · exact absurd h (by simp)
    · cases hadm : u.is_admin <;> rw [hadm] at h <;>
        simp only [Bool.false_eq_true, if_false, if_true, pure, Except.pure] at h
      · rcases ho : u.organizer_id with _ | oid <;> rw [ho] at h
        · exact absurd h (by simp)
        · cases hup : payload.has_updates <;> rw [hup] at h <;>
            simp only [Bool.not_false, Bool.not_true, Bool.false_eq_true, if_false, if_true] at h
          · exact absurd h (by simp)
          · rcases hf : db.events.find? (fun e => e.id == id) with _ | existing <;> rw [hf] at h
            · exact absurd h (by simp)
            · cases hown : (existing.organizer_id == oid) <;>
                simp only [Option.any_some, hown, Bool.not_false, Bool.not_true,
                  Bool.false_eq_true, if_false, if_true] at h
              · exact absurd h (by simp)
              · refine ⟨u, existing, rfl, hf, ?_⟩
                rw [Except.ok.injEq, Prod.mk.injEq] at h
                obtain ⟨hdb, hev⟩ := h
                subst hdb hev
                rfl
      · cases hup : payload.has_updates <;> rw [hup] at h <;>
          simp only [Bool.not_false, Bool.not_true, Bool.false_eq_true, if_false, if_true] at h
        · exact absurd h (by simp)
        · rcases hf : db.events.find? (fun e => e.id == id) with _ | existing <;> rw [hf] at h
          · exact absurd h (by simp)
          · simp only [Option.any_none, Bool.false_eq_true, if_false] at h
            refine ⟨u, existing, rfl, hf, ?_⟩
            rw [Except.ok.injEq, Prod.mk.injEq] at h
            obtain ⟨hdb, hev⟩ := h
            subst hdb hev
            rfl
  · intro db sid id now db' h
    unfold delete_event at h
    rcases hcu : current_user_from_session db sid now with e | u <;>
      rw [hcu] at h <;> simp only [Except.bind, Bind.bind] at h
    · exact absurd h (by simp)
    · cases hadm : u.is_admin <;> rw [hadm] at h <;>
        simp only [Bool.false_eq_true, if_false, if_true, pure, Except.pure] at h
      · rcases ho : u.organizer_id with _ | oid <;> rw [ho] at h
        · exact absurd h (by simp)
        · rcases hf : db.events.find? (fun e => e.id == id) with _ | existing <;> rw [hf] at h
          · exact absurd h (by simp)
          · cases hown : (existing.organizer_id == oid) <;>
              simp only [Option.any_some, hown, Bool.not_false, Bool.not_true,
                Bool.false_eq_true, if_false, if_true] at h
            · exact absurd h (by simp)
            · refine ⟨u, existing, rfl, hf, ?_⟩
              rw [Except.ok.injEq] at h
              subst h
              rfl
      · rcases hf : db.events.find? (fun e => e.id == id) with _ | existing <;> rw [hf] at h
        · exact absurd h (by simp)
        · simp only [Option.any_none, Bool.false_eq_true, if_false] at h
          refine ⟨u, existing, rfl, hf, ?_⟩
          rw [Except.ok.injEq] at h
          subst h
          rfl

/-- C4 (witness): concrete committed create, update and delete runs, each
leaving exactly the one expected audit row. -/
theorem c4_audit_row_per_mutation_witness :
    dbAfterCreate.audit_log = baseDb.audit_log ++
      [⟨100, 20, 2, .Create, none, some createdEvent⟩] ∧
    dbAfterUpdate.audit_log = baseDb.audit_log ++
      [⟨8, 20, 2, .Update, some ownEvent, some updatedEvent⟩] ∧
    dbAfterDelete.audit_log = baseDb.audit_log ++
      [⟨8, 20, 2, .Delete, some ownEvent, none⟩] := by
  refine ⟨?_, ?_, ?_⟩
  · obtain ⟨u, hcu, haud⟩ := c4_audit_row_per_mutation.1 baseDb 5 createPayload 100 0
      dbAfterCreate createdEvent rfl
    have h0 : current_user_from_session baseDb 5 0 =
        .ok (⟨2, .Organizer, some 20⟩ : AuthedUser) := rfl
    rw [h0, Except.ok.injEq] at hcu
    subst hcu
    exact haud
  · obtain ⟨u, existing, hcu, hf, haud⟩ := c4_audit_row_per_mutation.2.1 baseDb 5 8
      updatePayload 0 dbAfterUpdate updatedEvent rfl
    have h0 : current_user_from_session baseDb 5 0 =
        .ok (⟨2, .Organizer, some 20⟩ : AuthedUser) := rfl
    rw [h0, Except.ok.injEq] at hcu
    subst hcu
    have h1 : baseDb.events.find? (fun e => e.id == (8 : Int)) = some ownEvent := rfl
    rw [h1, Option.some.injEq] at hf
    subst hf
    exact haud
  · obtain ⟨u, existing, hcu, hf, haud⟩ := c4_audit_row_per_mutation.2.2 baseDb 5 8 0
      dbAfterDelete rfl
    have h0 : current_user_from_session baseDb 5 0 =
        .ok (⟨2, .Organizer, some 20⟩ : AuthedUser) := rfl
    rw [h0, Except.ok.injEq] at hcu
    subst hcu
    have h1 : baseDb.events.find? (fun e => e.id == (8 : Int)) = some ownEvent := rfl
    rw [h1, Option.some.injEq] at hf
    subst hf
    exact haud

set_option maxHeartbeats 2000000 in
/-- C5: the password policy evaluates its rules in the fixed source order —
minimum length 20, lowercase, uppercase, digit, symbol, blocklist on the
lowercased form, entropy threshold — returning `Ok` or the `Validation`
failure of the first violated rule only; a 19-character all-lowercase
password is rejected (with the length message, the first violated rule), a
20-character mixed-class password containing a blocklisted substring is
rejected, a compliant 24-character four-class password is accepted; and the
identical function decides the password in account initialization, password
change and password reset. -/
theorem c5_password_policy_first_violation :
    (∀ p, ensure_password_requirements p = spec_policy_outcome p) ∧
    ensure_password_requirements "abcdefghjkmnpqrstuv" =
      .error (.validation "password must be at least 20 characters long") ∧
    ensure_password_requirements "Password123456!aaaaa" =
      .error (.validation "password is too common or predictable") ∧
    ensure_password_requirements pwNew = .ok () ∧
    (∀ db token email p salt sid now pend e,
      ensure_pending_setup_token db token now = .ok pend →
      ensure_password_requirements p = .error e →
      init_account db token email p salt sid now = .error e) ∧
    (∀ db sid cur p salt now u acct stored parsed e,
      current_user_from_session db sid now = .ok u →
      db.accounts.find? (fun a => a.id == u.account_id) = some acct →
      acct.password_hash = some stored →
      parse_password_hash stored = some parsed →
      verify_password cur parsed = true →
      ensure_password_requirements p = .error e →
      change_password db sid cur p salt now = .error e) ∧
    (∀ db token p salt now rt a e,
      db.reset_tokens.find?
        (fun t => t.token == token && decide (now < t.expires_at) && t.used_at == none) =
        some rt →
      db.accounts.find? (fun x => x.id == rt.account_id) = some a →
      ensure_password_requirements p = .error e →
      reset_password db token p salt now = .error e) := by
  refine ⟨policy_matches_spec, rfl, rfl, rfl, ?_, ?_, ?_⟩
  · intro db token email p salt sid now pend e h1 h2
    simp only [init_account, h1, h2, Except.bind, Bind.bind]
  · intro db sid cur p salt now u acct stored parsed e h1 h2 h3 h4 h5 h6
    simp only [change_password, h1, h2, h3, h4, h5, h6, Except.bind, Bind.bind, if_true]
  · intro db token p salt now rt a e h1 h2 h3
    simp only [reset_password, h1, h2, h3, Except.bind, Bind.bind]

/-- C5 (witness): the policy check fires identically — and with the first
rule's message — inside all three credential flows on concrete states. -/
theorem c5_password_policy_first_violation_witness :
    ensure_pending_setup_token pendingDb "PTOK" 0 =
      .ok ⟨6, "Pending Club", .Organizer, some 60⟩ ∧
    init_account pendingDb "PTOK" "new@uni.example" "short" 3 77 0 =
      .error (.validation "password must be at least 20 characters long") ∧
    change_password baseDb 5 pwOld "short" 3 0 =
      .error (.validation "password must be at least 20 characters long") ∧
    reset_password resetDb "RTOK" "short" 3 0 =
      .error (.validation "password must be at least 20 characters long") := by
  refine ⟨rfl, ?_, ?_, ?_⟩
  · exact c5_password_policy_first_violation.2.2.2.2.1 pendingDb "PTOK" "new@uni.example"
      "short" 3 77 0 ⟨6, "Pending Club", .Organizer, some 60⟩ _ rfl rfl
  · exact c5_password_policy_first_violation.2.2.2.2.2.1 baseDb 5 pwOld "short" 3 0
      ⟨2, .Organizer, some 20⟩ orgAccount (hash_password pwOld 11) ⟨pwOld, 11⟩ _
      rfl rfl rfl rfl rfl rfl
  · exact c5_password_policy_first_violation.2.2.2.2.2.2 resetDb "RTOK" "short" 3 0
      resetTok orgAccount _ rfl rfl rfl

/-- C6: after a successful `change-password` and after a successful reset
`confirm`, zero session rows remain for the affected account, every
previously issued session identifier of that account fails resolution with
`Unauthorized` (session ids being unique), and neither operation inserts a
new session (the committed session table is a subset of the old one). -/
theorem c6_session_rotation :
    (∀ db sid cur new salt now db' u,
      unique_session_ids db →
      change_password db sid cur new salt now = .ok db' →
      current_user_from_session db sid now = .ok u →
      (db'.sessions.filter (fun s => s.account_id == u.account_id) = [] ∧
       (∀ s ∈ db.sessions, s.account_id = u.account_id → ∀ now2,
         current_user_from_session db' s.id now2 =
           .error (.unauthorized "invalid or expired session")) ∧
       (∀ s ∈ db'.sessions, s ∈ db.sessions))) ∧
    (∀ db token pw salt now db' rt,
      unique_session_ids db →
      reset_password db token pw salt now = .ok db' →
      db.reset_tokens.find? (reset_lookup_pred token now) = some rt →
      (db'.sessions.filter (fun s => s.account_id == rt.account_id) = [] ∧
       (∀ s ∈ db.sessions, s.account_id = rt.account_id → ∀ now2,
         current_user_from_session db' s.id now2 =
           .error (.unauthorized "invalid or expired session")) ∧
       (∀ s ∈ db'.sessions, s ∈ db.sessions))) := by
  constructor
  · intro db sid cur new salt now db' u hnodup h hcur
    obtain ⟨u', hu', hdb'⟩ := change_password_ok_inv db sid cur new salt now db' h
    rw [hcur, Except.ok.injEq] at hu'
    subst hu'
    subst hdb'
    refine ⟨?_, ?_, ?_⟩
    · rw [List.filter_eq_nil_iff]
      intro s hs
      rw [List.mem_filter] at hs
      simpa using hs.2
    · intro s hs hacc now2
      unfold current_user_from_session
      rw [purged_session_find_none db.sessions u.account_id s now2 hnodup hs hacc]
    · intro s hs
      exact List.mem_of_mem_filter hs
  · intro db token pw salt now db' rt hnodup h hfind
    obtain ⟨rt', hf', hdb'⟩ := reset_password_ok_inv db token pw salt now db' h
    rw [hfind, Option.some.injEq] at hf'
    subst hf'
    subst hdb'
    refine ⟨?_, ?_, ?_⟩
    · rw [List.filter_eq_nil_iff]
      intro s hs
      rw [List.mem_filter] at hs
      simpa using hs.2
    · intro s hs hacc now2
      unfold current_user_from_session
      rw [purged_session_find_none db.sessions rt.account_id s now2 hnodup hs hacc]
    · intro s hs
      exact List.mem_of_mem_filter hs

/-- C6 (witness): concrete password change and reset runs after which the
account's sessions are gone and the old session cookie no longer resolves. -/
theorem c6_session_rotation_witness :
    changeDbAfter.sessions.filter (fun s => s.account_id == (2 : Int)) = [] ∧
    current_user_from_session changeDbAfter 5 0 =
      .error (.unauthorized "invalid or expired session") ∧
    resetDbAfter.sessions.filter (fun s => s.account_id == (2 : Int)) = [] ∧
    current_user_from_session resetDbAfter 5 1 =
      .error (.unauthorized "invalid or expired session") := by
  have h1 := c6_session_rotation.1 baseDb 5 pwOld pwNew 42 0 changeDbAfter
    ⟨2, .Organizer, some 20⟩ (by unfold unique_session_ids; decide) rfl rfl
  have h2 := c6_session_rotation.2 resetDb "RTOK" pwNew 42 0 resetDbAfter resetTok
    (by unfold unique_session_ids; decide) rfl rfl
  exact ⟨h1.1, h1.2.1 orgSession (by decide) rfl 0, h2.1, h2.2.1 orgSession (by decide) rfl 1⟩

/-- C7 (counterexample): the claim says an expired and an already-consumed
setup token both produce the single message `"invalid setup token"`.  On the
concrete states, the expired token yields `"setup token expired"` and the
consumed one `"account already initialized"` — both different from
`"invalid setup token"`, so the causes are distinguishable. -/
theorem c7_counterexample :
    ensure_pending_setup_token tokenStateDb "ETOK" 0 =
      .error (.validation "setup token expired") ∧
    ensure_pending_setup_token tokenStateDb "CTOK" 0 =
      .error (.validation "account already initialized") ∧
    ("setup token expired" ≠ "invalid setup token") ∧
    ("account already initialized" ≠ "invalid setup token") :=
  ⟨rfl, rfl, by decide, by decide⟩

/-- C7 (amended): the three failure causes of the unauthenticated
initialization endpoints all surface as `Validation` errors with status 400
— propagated unchanged through both `register-info` and `init` — but with
three distinct messages: an unknown token gives `"invalid setup token"`, an
expired (or expiry-less) token gives `"setup token expired"`, and an
already-initialized account gives `"account already initialized"`; the
causes are therefore distinguishable to the caller. -/
theorem c7_distinct_validation_messages :
    (∀ db token now,
      db.accounts.find? (fun a => a.setup_token == some (normalize_setup_token token)) =
        none →
      ensure_pending_setup_token db token now = .error (.validation "invalid setup token")) ∧
    (∀ db token now row w,
      db.accounts.find? (fun a => a.setup_token == some (normalize_setup_token token)) =
        some row →
      row.setup_token_expires_at = some w → w ≤ now →
      ensure_pending_setup_token db token now = .error (.validation "setup token expired")) ∧
    (∀ db token now row w,
      db.accounts.find? (fun a => a.setup_token == some (normalize_setup_token token)) =
        some row →
      row.setup_token_expires_at = some w → now < w → row.password_hash.isSome →
      ensure_pending_setup_token db token now =
        .error (.validation "account already initialized")) ∧
    (∀ db token now e, ensure_pending_setup_token db token now = .error e →
      (∃ m, e = .validation m ∧ status_code e = 400) ∧
      lookup_setup_token db token now = .error e ∧
      (∀ email pw salt sid, init_account db token email pw salt sid now = .error e)) := by
  refine ⟨?_, ?_, ?_, ?_⟩
  · intro db token now h
    simp only [ensure_pending_setup_token, h]
  · intro db token now row w h1 h2 h3
    simp only [ensure_pending_setup_token, h1, h2, if_neg (not_lt.mpr h3)]
  · intro db token now row w h1 h2 h3 h4
    simp only [ensure_pending_setup_token, h1, h2, if_pos h3, h4, if_true]
  · intro db token now e h
    refine ⟨?_, ?_, ?_⟩
    · unfold ensure_pending_setup_token at h
      rcases hf : db.accounts.find?
          (fun a => a.setup_token == some (normalize_setup_token token)) with _ | row
      · simp only [hf] at h
        exact ⟨"invalid setup token", by cases h; exact ⟨rfl, rfl⟩⟩
      · simp only [hf] at h
        rcases hw : row.setup_token_expires_at with _ | w
        · simp only [hw] at h
          exact ⟨"setup token expired", by cases h; exact ⟨rfl, rfl⟩⟩
        · simp only [hw] at h
          by_cases hlt : now < w
          · rw [if_pos hlt] at h
            cases hph : row.password_hash.isSome
            · rw [hph] at h; simp at h
            · rw [hph] at h; simp at h
              exact ⟨"account already initialized", by cases h; exact ⟨rfl, rfl⟩⟩
          · rw [if_neg hlt] at h
            exact ⟨"setup token expired", by cases h; exact ⟨rfl, rfl⟩⟩
    · simp only [lookup_setup_token, h, Except.bind, Bind.bind]
    · intro email pw salt sid
      simp only [init_account, h, Except.bind, Bind.bind]

/-- C7 (witness): the three distinct messages and their propagation through
both endpoints, on concrete states. -/
theorem c7_distinct_validation_messages_witness :
    ensure_pending_setup_token tokenStateDb "NOPE" 0 =
      .error (.validation "invalid setup token") ∧
    ensure_pending_setup_token tokenStateDb "ETOK" 1 =
      .error (.validation "setup token expired") ∧
    ensure_pending_setup_token tokenStateDb "CTOK" 1 =
      .error (.validation "account already initialized") ∧
    lookup_setup_token tokenStateDb "ETOK" 1 =
      .error (.validation "setup token expired") ∧
    init_account tokenStateDb "ETOK" "new@uni.example" pwNew 0 7 1 =
      .error (.validation "setup token expired") ∧
    status_code (.validation "setup token expired") = 400 := by
  have h1 := c7_distinct_validation_messages.1 tokenStateDb "NOPE" 0 rfl
  have h2 := c7_distinct_validation_messages.2.1 tokenStateDb "ETOK" 1 expiredAccount (-5)
    rfl rfl (by decide)
  have h3 := c7_distinct_validation_messages.2.2.1 tokenStateDb "CTOK" 1 consumedAccount 1000
    rfl rfl (by decide) rfl
  obtain ⟨⟨m, hm, hst⟩, hlook, hinit⟩ :=
    c7_distinct_validation_messages.2.2.2 tokenStateDb "ETOK" 1
      (.validation "setup token expired") h2
  exact ⟨h1, h2, h3, hlook, hinit "new@uni.example" pwNew 0 7, hst⟩

/-- C8 (counterexample): the claim says every 32-byte input yields a token of
only URL-transport-safe characters.  The concrete 32-byte input starting
with byte 251 encodes to a token whose first character is `'+'`, which does
not survive URL transport unescaped. -/
theorem c8_counterexample :
    (251 :: List.replicate 31 0).length = 32 ∧
    (∀ b ∈ (251 :: List.replicate 31 0), b < 256) ∧
    '+' ∈ (generate_setup_token_value (251 :: List.replicate 31 0)).toList ∧
    url_safe_char '+' = false := by
  refine ⟨by decide, by decide, ?_, by decide⟩
  decide

/-- C8 (amended): `generate_setup_token_value` encodes its 32 CSPRNG bytes
(256 bits) in STANDARD base64, not a URL/cookie-safe encoding: every emitted
character belongs to the standard base64 alphabet — which contains `'+'` and
`'/'` — or is `'='` padding, and some inputs do emit `'+'`
(see the counterexample); the token lookup path compensates by mapping the
URL-decoding artefact `' '` back to `'+'`. -/
theorem c8_standard_base64_token :
    ∀ bytes : List Nat, (∀ b ∈ bytes, b < 256) →
      ∀ c ∈ (generate_setup_token_value bytes).toList,
        c ∈ base64_std_alphabet ∨ c = '=' := by
  intro bytes hb c hc
  change c ∈ base64_std_encode bytes at hc
  induction bytes using base64_std_encode.induct with
  | case1 => simp [base64_std_encode] at hc
  | case2 b1 =>
    have h1 : b1 < 256 := hb b1 (by simp)
    simp only [base64_std_encode, List.mem_cons, List.not_mem_nil, or_false] at hc
    rcases hc with rfl | rfl | rfl | rfl
    · exact .inl (b64char_mem _ (by omega))
    · exact .inl (b64char_mem _ (by omega))
    · exact .inr rfl
    · exact .inr rfl
  | case3 b1 b2 =>
    have h1 : b1 < 256 := hb b1 (by simp)
    have h2 : b2 < 256 := hb b2 (by simp)
    simp only [base64_std_encode, List.mem_cons, List.not_mem_nil, or_false] at hc
    rcases hc with rfl | rfl | rfl | rfl
    · exact .inl (b64char_mem _ (by omega))
    · exact .inl (b64char_mem _ (by omega))
    · exact .inl (b64char_mem _ (by omega))
    · exact .inr rfl
  | case4 b1 b2 b3 rest ih =>
    have h1 : b1 < 256 := hb b1 (by simp)
    have h2 : b2 < 256 := hb b2 (by simp)
    have h3 : b3 < 256 := hb b3 (by simp)
    simp only [base64_std_encode, List.mem_cons] at hc
    rcases hc with rfl | rfl | rfl | rfl | hc
    · exact .inl (b64char_mem _ (by omega))
    · exact .inl (b64char_mem _ (by omega))
    · exact .inl (b64char_mem _ (by omega))
    · exact .inl (b64char_mem _ (by omega))
    · exact ih (fun b hbm => hb b (by simp [hbm])) hc

/-- C8 (witness): the amended alphabet property evaluated on the all-zero
32-byte input, whose token is 43 `'A'`s and a padding `'='`. -/
theorem c8_standard_base64_token_witness :
    'A' ∈ base64_std_alphabet ∨ 'A' = '=' :=
  c8_standard_base64_token (List.replicate 32 0) (by decide) 'A' (by decide)

/-- C9 (counterexample): the claim says the ownership denial surfaces as
`Unauthorized` for `get_event` too.  On the concrete state — the event
exists, the caller is an authenticated organizer that does not own it —
`get_event` returns `NotFound "event not found"`, status 404, not 401. -/
theorem c9_counterexample :
    baseDb.events.find? (fun e => e.id == 7) = some otherEvent ∧
    current_user_from_session baseDb 5 0 = .ok ⟨2, .Organizer, some 20⟩ ∧
    otherEvent.organizer_id = 10 ∧
    get_event baseDb 5 7 0 = .error (.notFound "event not found") ∧
    status_code (.notFound "event not found") = 404 :=
  ⟨rfl, rfl, rfl, rfl, rfl⟩

/-- C9 (amended): for an authenticated organizer acting on an existing event
owned by a different organizer, `update_event` and `delete_event` deny with
`Unauthorized` (status 401), while `get_event` masks the denial as
`NotFound "event not found"` (status 404), identical to the missing-resource
response. -/
theorem c9_denial_status_codes :
    (∀ db sid id payload now u oid existing,
      current_user_from_session db sid now = .ok u →
      u.is_admin = false → u.organizer_id = some oid →
      payload.has_updates = true →
      db.events.find? (fun e => e.id == id) = some existing →
      (existing.organizer_id == oid) = false →
      update_event db sid id payload now =
        .error (.unauthorized "cannot update another organizer's event") ∧
      status_code (.unauthorized "cannot update another organizer's event") = 401) ∧
    (∀ db sid id now u oid existing,
      current_user_from_session db sid now = .ok u →
      u.is_admin = false → u.organizer_id = some oid →
      db.events.find? (fun e => e.id == id) = some existing →
      (existing.organizer_id == oid) = false →
      delete_event db sid id now =
        .error (.unauthorized "cannot delete another organizer's event") ∧
      status_code (.unauthorized "cannot delete another organizer's event") = 401) ∧
    (∀ db sid id now u existing,
      current_user_from_session db sid now = .ok u →
      u.is_admin = false →
      (u.organizer_id == some existing.organizer_id) = false →
      db.events.find? (fun e => e.id == id) = some existing →
      get_event db sid id now = .error (.notFound "event not found") ∧
      status_code (.notFound "event not found") = 404) := by
  refine ⟨?_, ?_, ?_⟩
  · intro db sid id payload now u oid existing h1 h2 h3 h4 h5 h6
    refine ⟨?_, rfl⟩
    simp [update_event, h1, h2, h3, h4, h5, h6, Except.bind, Bind.bind, pure, Except.pure]
  · intro db sid id now u oid existing h1 h2 h3 h4 h5
    refine ⟨?_, rfl⟩
    simp [delete_event, h1, h2, h3, h4, h5, Except.bind, Bind.bind, pure, Except.pure]
  · intro db sid id now u existing h1 h2 h3 h4
    refine ⟨?_, rfl⟩
    simp [get_event, h1, h2, h3, h4, Except.bind, Bind.bind]

/-- C9 (witness): the three denials on the concrete foreign-owned event. -/
theorem c9_denial_status_codes_witness :
    (update_event baseDb 5 7 updatePayload 0 =
      .error (.unauthorized "cannot update another organizer's event") ∧
     status_code (.unauthorized "cannot update another organizer's event") = 401) ∧
    (delete_event baseDb 5 7 0 =
      .error (.unauthorized "cannot delete another organizer's event") ∧
     status_code (.unauthorized "cannot delete another organizer's event") = 401) ∧
    (get_event baseDb 5 7 0 = .error (.notFound "event not found") ∧
     status_code (.notFound "event not found") = 404) := by
  refine ⟨?_, ?_, ?_⟩
  · exact c9_denial_status_codes.1 baseDb 5 7 updatePayload 0 ⟨2, .Organizer, some 20⟩ 20
      otherEvent rfl rfl rfl rfl rfl rfl
  · exact c9_denial_status_codes.2.1 baseDb 5 7 0 ⟨2, .Organizer, some 20⟩ 20
      otherEvent rfl rfl rfl rfl rfl
  · exact c9_denial_status_codes.2.2 baseDb 5 7 0 ⟨2, .Organizer, some 20⟩
      otherEvent rfl rfl rfl rfl

/-- C10: the login endpoint is enumeration-resistant — an unknown email, an
uninitialized account (no stored hash), an unparseable stored hash, and a
wrong password all produce the identical `Unauthorized "invalid e-mail or
password"` error, so the four failure runs are indistinguishable. -/
theorem c10_login_enumeration_resistant :
    ∀ (db : Db) (email password : String) (sid : Nat) (now : Int),
      (db.accounts.find? (fun a => a.email == some email) = none →
        login db email password sid now =
          .error (.unauthorized "invalid e-mail or password")) ∧
      (∀ row, db.accounts.find? (fun a => a.email == some email) = some row →
        row.password_hash = none →
        login db email password sid now =
          .error (.unauthorized "invalid e-mail or password")) ∧
      (∀ row stored, db.accounts.find? (fun a => a.email == some email) = some row →
        row.password_hash = some stored → parse_password_hash stored = none →
        login db email password sid now =
          .error (.unauthorized "invalid e-mail or password")) ∧
      (∀ row stored parsed,
        db.accounts.find? (fun a => a.email == some email) = some row →
        row.password_hash = some stored → parse_password_hash stored = some parsed →
        verify_password password parsed = false →
        login db email password sid now =
          .error (.unauthorized "invalid e-mail or password")) := by
  intro db email password sid now
  refine ⟨?_, ?_, ?_, ?_⟩
  · intro h; simp only [login, h]
  · intro row h hn; simp only [login, h, hn]
  · intro row stored h hs hp; simp only [login, h, hs, hp]
  · intro row stored parsed h hs hp hv; simp only [login, h, hs, hp, hv]
    simp

/-- C10 (witness): the identical error on the four concrete failure runs. -/
theorem c10_login_enumeration_resistant_witness :
    login baseDb "absent@uni.example" "pw" 99 0 =
      .error (.unauthorized "invalid e-mail or password") ∧
    login ⟨[noHashAccount], [], [], [], []⟩ "nohash@uni.example" "pw" 99 0 =
      .error (.unauthorized "invalid e-mail or password") ∧
    login ⟨[badHashAccount], [], [], [], []⟩ "badhash@uni.example" "pw" 99 0 =
      .error (.unauthorized "invalid e-mail or password") ∧
    login baseDb "club@uni.example" "wrongpassword" 99 0 =
      .error (.unauthorized "invalid e-mail or password") := by
  refine ⟨?_, ?_, ?_, ?_⟩
  · exact (c10_login_enumeration_resistant baseDb "absent@uni.example" "pw" 99 0).1 rfl
  · exact (c10_login_enumeration_resistant _ "nohash@uni.example" "pw" 99 0).2.1
      noHashAccount rfl rfl
  · exact (c10_login_enumeration_resistant _ "badhash@uni.example" "pw" 99 0).2.2.1
      badHashAccount (.malformed "junk") rfl rfl rfl
  · exact (c10_login_enumeration_resistant baseDb "club@uni.example" "wrongpassword" 99 0).2.2.2
      orgAccount (hash_password pwOld 11) ⟨pwOld, 11⟩ rfl rfl rfl rfl
